import Mathlib

set_option maxRecDepth 100000

/-!
Verification of the NTSM container codec (netisu/ntsm, Go).

The repository has two binary layouts in play:

* the library (`package ntsm`): a `Header` struct (Magic, Version, Name,
  Flags, GLBOffset, GLBSize, ParticleOffset, ParticleSize) that `Decode`
  reads with `binary.Read(r, binary.LittleEndian, &hdr)`.  Go's
  `encoding/binary` reads structs packed (no alignment padding), so this
  header occupies 4+4+128+1+4+4+4+4 = 153 bytes of the stream;
* the migration tool (`ntsm-migrate`): an `NTSMHeader` struct that adds a
  blank `_ [3]byte` field after Flags and two texture fields
  (TextureCount, TextureOffset), written with `binary.Write`, occupying
  4+4+128+1+3+4+4+4+4+4+4 = 164 bytes.

Bytes are modelled as `List Nat` (each entry a byte value 0..255); multi-
byte integers are little-endian as in the source.  `float32` fields are
carried as their raw 4-byte little-endian bit patterns (a `Nat`): the codec
only copies those bytes and performs no floating-point arithmetic, so the
bit pattern is a faithful, lossless representation.  `int32` is modelled as
`Int` by two's-complement interpretation of the 32-bit pattern.  Fallible
reads return `Option` (Go's `io.ReadFull` error becomes `none`).
-/

namespace NTSM

/-- `HeaderSize = 192` from both source files (`// Fixed header size in bytes`). -/
def HeaderSize : Nat := 192

/-- The magic constant `"NTSM"` as bytes (`'N' 'T' 'S' 'M'`). -/
def MagicBytes : List Nat := [78, 84, 83, 77]

/-- The library's `Header` struct (package ntsm).  Field order and widths
exactly as declared: `Magic [4]byte`, `Version uint32`, `Name [128]byte`,
`Flags uint8`, `GLBOffset uint32`, `GLBSize uint32`, `ParticleOffset uint32`,
`ParticleSize uint32`.  Note: no reserved bytes and no texture fields. -/
structure Header where
  Magic : List Nat
  Version : Nat
  Name : List Nat
  Flags : Nat
  GLBOffset : Nat
  GLBSize : Nat
  ParticleOffset : Nat
  ParticleSize : Nat
deriving Repr, DecidableEq

/-- `ParticleEmitter` struct, common to both source files.  `float32`
fields hold that float's 32-bit little-endian bit pattern as a `Nat` (the
codec never computes with the floats, it only moves their bytes). -/
structure ParticleEmitter where
  Position : List Nat
  Direction : List Nat
  SpreadAngle : Nat
  EmissionRate : Nat
  ParticleLifetime : Nat
  StartSize : Nat
  EndSize : Nat
  StartColor : List Nat
  EndColor : List Nat
  VelocityMin : List Nat
  VelocityMax : List Nat
  Gravity : Nat
  TextureIndex : Int
  BlendMode : Nat
  Loop : Nat
deriving Repr, DecidableEq

/-- Binary size of the library `Header` under `encoding/binary` packed
layout: 4 + 4 + 128 + 1 + 4 + 4 + 4 + 4. -/
def headerStructSize : Nat := 153

/-- Binary size of `ParticleEmitter` under `encoding/binary`:
27 four-byte fields (25 float32 + 1 int32 split over the arrays and
scalars) + BlendMode + Loop + blank `_ [2]byte` = 108 + 1 + 1 + 2. -/
def emitterStructSize : Nat := 112

/-- `io.ReadFull`: take exactly `n` bytes, or fail when fewer remain. -/
def readBytes (n : Nat) (b : List Nat) : Option (List Nat × List Nat) :=
  if n ≤ b.length then some (b.take n, b.drop n) else none

/-- Little-endian `uint32` assembled from the four bytes at index `i`. -/
def u32At (b : List Nat) (i : Nat) : Nat :=
  b.getD i 0 + 256 * (b.getD (i + 1) 0 + 256 * (b.getD (i + 2) 0 + 256 * b.getD (i + 3) 0))

/-- Two's-complement reading of a 32-bit pattern as Go `int32`. -/
def toInt32 (n : Nat) : Int :=
  if n < 2 ^ 31 then (n : Int) else (n : Int) - 2 ^ 32

/-- Field extraction performed by `binary.Read` for the library `Header`
on its 153 header bytes.  Packed offsets: Magic 0, Version 4, Name 8,
Flags 136, GLBOffset 137, GLBSize 141, ParticleOffset 145,
ParticleSize 149. -/
def decodeHeaderBytes (b : List Nat) : Header :=
  { Magic := b.take 4
    Version := u32At b 4
    Name := (b.drop 8).take 128
    Flags := b.getD 136 0
    GLBOffset := u32At b 137
    GLBSize := u32At b 141
    ParticleOffset := u32At b 145
    ParticleSize := u32At b 149 }

/-- Field extraction performed by `binary.Read` for one `ParticleEmitter`
record on its 112 bytes, in declared field order; the trailing blank
`_ [2]byte` is consumed but not stored. -/
def decodeEmitterBytes (b : List Nat) : ParticleEmitter :=
  { Position := [u32At b 0, u32At b 4, u32At b 8]
    Direction := [u32At b 12, u32At b 16, u32At b 20]
    SpreadAngle := u32At b 24
    EmissionRate := u32At b 28
    ParticleLifetime := u32At b 32
    StartSize := u32At b 36
    EndSize := u32At b 40
    StartColor := [u32At b 44, u32At b 48, u32At b 52, u32At b 56]
    EndColor := [u32At b 60, u32At b 64, u32At b 68, u32At b 72]
    VelocityMin := [u32At b 76, u32At b 80, u32At b 84]
    VelocityMax := [u32At b 88, u32At b 92, u32At b 96]
    Gravity := u32At b 100
    TextureIndex := toInt32 (u32At b 104)
    BlendMode := b.getD 108 0
    Loop := b.getD 109 0 }

/-- The decode loop `for i := range emitters { binary.Read(...) }`:
reads `count` records of 112 bytes each, failing on the first short read. -/
def decodeEmitters (count : Nat) (b : List Nat) :
    Option (List ParticleEmitter × List Nat) :=
  match count with
  | 0 => some ([], b)
  | n + 1 =>
    match readBytes emitterStructSize b with
    | none => none
    | some (eb, rest) =>
      match decodeEmitters n rest with
      | none => none
      | some (es, rest2) => some (decodeEmitterBytes eb :: es, rest2)

/-- `Decode` (package ntsm).  Mirrors the source line by line:
1. `binary.Read` of the 153-byte packed `Header` (error on short input);
2. `padding := make([]byte, HeaderSize-192)` is 0 bytes, so the ignored
   `io.ReadFull(r, padding)` consumes nothing;
3. `io.ReadFull` of `hdr.GLBSize` bytes (error on short input);
4. iff `hdr.ParticleSize > 0 && (hdr.Flags&0x01) != 0`, read
   `hdr.ParticleSize / 128` emitter records (integer division);
5. no validation of magic, version, flags, offsets or sizes is performed. -/
def Decode (b : List Nat) : Option (Header × List Nat × List ParticleEmitter) :=
  match readBytes headerStructSize b with
  | none => none
  | some (hb, r1) =>
    match readBytes (decodeHeaderBytes hb).GLBSize r1 with
    | none => none
    | some (glb, r2) =>
      if (decodeHeaderBytes hb).ParticleSize > 0 ∧ (decodeHeaderBytes hb).Flags &&& 1 ≠ 0 then
        match decodeEmitters ((decodeHeaderBytes hb).ParticleSize / 128) r2 with
        | none => none
        | some (ems, _) => some (decodeHeaderBytes hb, glb, ems)
      else
        some (decodeHeaderBytes hb, glb, [])

/-- The migration tool's `NTSMHeader` struct: the library `Header` plus a
blank `_ [3]byte` after Flags and the two texture fields. -/
structure NTSMHeader where
  Magic : List Nat
  Version : Nat
  Name : List Nat
  Flags : Nat
  GLBOffset : Nat
  GLBSize : Nat
  ParticleOffset : Nat
  ParticleSize : Nat
  TextureCount : Nat
  TextureOffset : Nat
deriving Repr, DecidableEq

/-- The name slot of `createHeader`: `header.Name` is a zeroed `[128]byte`
into which at most 127 bytes of the item id are copied
(`if len(name) > 127 { name = name[:127] }; copy(header.Name[:], name)`). -/
def packName (name : List Nat) : List Nat :=
  let t := name.take 127
  t ++ List.replicate (128 - t.length) 0

/-- `createHeader` (identical in both tool sources).  The Go code derives
`itemID` from the source path (`filepath.Base` minus extension) and takes
the GLB bytes; we take those two inputs directly.  `uint32` conversions
truncate modulo 2^32 as in Go. -/
def createHeader (itemID glbData : List Nat) : NTSMHeader :=
  { Magic := MagicBytes
    Version := 1
    Name := packName itemID
    Flags := 0
    GLBOffset := HeaderSize
    GLBSize := glbData.length % 2 ^ 32
    ParticleOffset := (HeaderSize + glbData.length % 2 ^ 32) % 2 ^ 32
    ParticleSize := 0
    TextureCount := 0
    TextureOffset := 0 }

/-- Little-endian serialization of a `uint32` value. -/
def u32LE (n : Nat) : List Nat :=
  [n % 256, n / 256 % 256, n / 256 ^ 2 % 256, n / 256 ^ 3 % 256]

/-- `binary.Write(out, binary.LittleEndian, header)` for `NTSMHeader`:
164 bytes; the blank `_ [3]byte` field is written as three zero bytes. -/
def encodeNTSMHeader (h : NTSMHeader) : List Nat :=
  h.Magic ++ u32LE h.Version ++ h.Name ++ [h.Flags % 256] ++ [0, 0, 0] ++
    u32LE h.GLBOffset ++ u32LE h.GLBSize ++ u32LE h.ParticleOffset ++
    u32LE h.ParticleSize ++ u32LE h.TextureCount ++ u32LE h.TextureOffset

/-- `convertToNTSM`'s byte output: header bytes, then
`make([]byte, HeaderSize-192)` = 0 padding bytes, then the GLB blob. -/
def encodeNTSM (itemID glbData : List Nat) : List Nat :=
  encodeNTSMHeader (createHeader itemID glbData) ++
    List.replicate (HeaderSize - 192) 0 ++ glbData

/-- The header value `Decode` extracts from 153 zero bytes. -/
def zeroHeader : Header :=
  { Magic := [0, 0, 0, 0]
    Version := 0
    Name := List.replicate 128 0
    Flags := 0
    GLBOffset := 0
    GLBSize := 0
    ParticleOffset := 0
    ParticleSize := 0 }

/-- The emitter value `Decode` extracts from a 112-byte all-zero record. -/
def zeroEmitter : ParticleEmitter :=
  { Position := [0, 0, 0]
    Direction := [0, 0, 0]
    SpreadAngle := 0
    EmissionRate := 0
    ParticleLifetime := 0
    StartSize := 0
    EndSize := 0
    StartColor := [0, 0, 0, 0]
    EndColor := [0, 0, 0, 0]
    VelocityMin := [0, 0, 0]
    VelocityMax := [0, 0, 0]
    Gravity := 0
    TextureIndex := 0
    BlendMode := 0
    Loop := 0 }

/-- A stream that is 153 zero header bytes, except the `GLBSize` field of
the library layout (bytes 141..144) set to 1, followed by one byte 171. -/
def c3input : List Nat :=
  List.replicate 141 0 ++ [1, 0, 0, 0] ++ List.replicate 8 0 ++ [171]

/-- Header decoded from the first 153 bytes of `c3input`. -/
def c3hdr : Header := { zeroHeader with GLBSize := 1 }

/-- 153 header bytes with `Flags = 1` (byte 136) and `ParticleSize = 128`
(byte 149), `GLBSize = 0`, followed by one all-zero 112-byte record. -/
def c4input : List Nat :=
  List.replicate 136 0 ++ [1] ++ List.replicate 12 0 ++ [128, 0, 0, 0] ++
    List.replicate 112 0

/-- Same header as `c4input` but only 111 trailing bytes. -/
def c4short : List Nat :=
  List.replicate 136 0 ++ [1] ++ List.replicate 12 0 ++ [128, 0, 0, 0] ++
    List.replicate 111 0

/-- Header decoded from the first 153 bytes of `c4input`. -/
def c4hdr : Header := { zeroHeader with Flags := 1, ParticleSize := 128 }

/-- 153 header bytes with `Flags = 1` and `ParticleSize = 130` (not a
multiple of 128), followed by 112 zero bytes. -/
def c5input : List Nat :=
  List.replicate 136 0 ++ [1] ++ List.replicate 12 0 ++ [130, 0, 0, 0] ++
    List.replicate 112 0

/-- Header decoded from the first 153 bytes of `c5input`. -/
def c5hdr : Header := { zeroHeader with Flags := 1, ParticleSize := 130 }

/-- 153 header bytes with `Flags = 0` and `ParticleSize = 128`. -/
def c6input : List Nat := List.replicate 149 0 ++ [128, 0, 0, 0]

/-- Header decoded from `c6input`. -/
def c6hdr : Header := { zeroHeader with ParticleSize := 128 }

/-- A 112-byte emitter record whose `TextureIndex` bytes (offsets
104..107) are `0xFF 0xFF 0xFF 0xFF`, the little-endian `int32` value -1. -/
def c8record : List Nat :=
  List.replicate 104 0 ++ [255, 255, 255, 255] ++ List.replicate 4 0

/-- Claim C1: decoding the bytes produced by encoding returns the input
exactly.  FALSE on the code: the migration tool writes a 164-byte
`NTSMHeader` (with 3 reserved bytes and two texture fields) while the
library `Decode` reads a 153-byte `Header` without them, so the decoder
misreads `GLBSize` from the wrong offset and fails (or returns garbage
offsets).  At item id "a" and the 4-byte GLB blob "glTF", decode of the
encoded stream errors instead of returning the input. -/
theorem ntsm_C1_roundtrip_fails :
    Decode (encodeNTSM [97] [103, 108, 84, 70]) = none := by decide

/-- Claim C2: any input whose first 4 bytes are not "NTSM" must fail with
`MalformedHeader`.  FALSE on the code: `Decode` never inspects the magic
bytes; on 153 zero bytes it succeeds and returns a fully parsed result
with an all-zero magic. -/
theorem ntsm_C2_magic_never_validated :
    Decode (List.replicate 153 0) = some (zeroHeader, [], []) ∧
      zeroHeader.Magic ≠ MagicBytes := by
  exact ⟨by decide, by decide⟩

/-- Claim C3: the encoded header occupies exactly 192 bytes and decode
consumes exactly 192 header bytes before the GLB section.  FALSE on the
code: `Decode` consumes only 153 header bytes (the packed library
`Header`), so the byte at offset 153 is already returned as GLB payload,
and the migration tool's `binary.Write` of `NTSMHeader` emits 164 header
bytes; neither is 192. -/
theorem ntsm_C3_header_not_192_bytes :
    Decode c3input = some (c3hdr, [171], []) ∧
      c3input.length = 154 ∧
      (encodeNTSMHeader (createHeader [] [])).length = 164 ∧
      headerStructSize ≠ HeaderSize := by
  refine ⟨by decide, by decide, by decide, by decide⟩

/-- Claim C4: each particle-emitter record occupies exactly 128 bytes and
decode reads `ParticleSize/128` records of 128 bytes each.  FALSE on the
code: the record count is indeed `ParticleSize/128`, but each
`binary.Read` of `ParticleEmitter` consumes only 112 bytes (the struct's
fields sum to 112): with `ParticleSize = 128`, decode succeeds on exactly
112 trailing bytes and fails on 111. -/
theorem ntsm_C4_emitter_record_112_bytes :
    Decode c4input = some (c4hdr, [], [zeroEmitter]) ∧
      Decode c4short = none ∧
      c4input.length = 153 + 112 ∧
      emitterStructSize ≠ 128 := by
  refine ⟨by decide, by decide, by decide, by decide⟩

/-- Claim C5: a particle size that is not a multiple of 128 (with the
has_particles flag set) must make decode fail before constructing any
emitter.  FALSE on the code: with `ParticleSize = 130`, `Decode` computes
`count = 130 / 128 = 1` by truncating integer division and happily
returns one emitter with no error. -/
theorem ntsm_C5_non_multiple_accepted :
    Decode c5input = some (c5hdr, [], [zeroEmitter]) ∧ c5hdr.ParticleSize % 128 ≠ 0 := by
  exact ⟨by decide, by decide⟩

/-- Claim C6: whenever the decoded header's flags have bit 0 clear,
`Decode` returns an empty emitter list, even when the particle-size field
is nonzero.  TRUE on the code: the emitter loop is guarded by
`hdr.ParticleSize > 0 && (hdr.Flags&0x01) != 0`, so with bit 0 clear the
`emitters` slice is left nil. -/
theorem ntsm_C6_flags_clear_empty_emitters (b : List Nat) (hdr : Header)
    (glb : List Nat) (ems : List ParticleEmitter)
    (hdec : Decode b = some (hdr, glb, ems)) (hflag : hdr.Flags &&& 1 = 0) :
    ems = [] := by
  unfold Decode at hdec
  split at hdec
  · exact Option.noConfusion hdec
  · split at hdec
    · exact Option.noConfusion hdec
    · split at hdec
      · rename_i hcond
        split at hdec
        · exact Option.noConfusion hdec
        · simp only [Option.some.injEq, Prod.mk.injEq] at hdec
          obtain ⟨hh, hg, he⟩ := hdec
          rw [← hh] at hflag
          exact absurd hflag hcond.2
      · simp only [Option.some.injEq, Prod.mk.injEq] at hdec
        exact hdec.2.2.symm

/-- Witness for C6: a concrete 153-byte stream with flags byte 0 and
particle-size field 128 decodes to an empty emitter list. -/
theorem ntsm_C6_witness :
    Decode c6input = some (c6hdr, [], []) ∧ ([] : List ParticleEmitter) = [] :=
  ⟨by decide, ntsm_C6_flags_clear_empty_emitters c6input c6hdr [] [] (by decide) (by decide)⟩

/-- Claim C7: a name longer than 127 bytes is truncated to its first 127
bytes followed by a zero byte; the 128-byte name slot therefore always
holds a terminating zero, and the name stored (hence later decoded) is
the truncated one, never the original.  TRUE on the code: `createHeader`
slices `name[:127]` and copies into a zeroed `[128]byte`. -/
theorem ntsm_C7_long_name_truncated (itemID glbData : List Nat)
    (h : 127 < itemID.length) :
    (createHeader itemID glbData).Name = itemID.take 127 ++ [0] ∧
      (createHeader itemID glbData).Name.getD 127 0 = 0 ∧
      itemID.take 127 ≠ itemID := by
  have hlen : (itemID.take 127).length = 127 := by
    rw [List.length_take]
    omega
  have h1 : (createHeader itemID glbData).Name = itemID.take 127 ++ [0] := by
    show packName itemID = _
    simp only [packName, hlen]
    rfl
  refine ⟨h1, ?_, ?_⟩
  · rw [h1, List.getD_append_right _ _ _ _ (by omega)]
    simp [hlen]
  · intro hcontra
    have hc := congrArg List.length hcontra
    rw [hlen] at hc
    omega

/-- Witness for C7: a 128-byte name of letter A is truncated to 127 bytes
plus the terminating zero. -/
theorem ntsm_C7_witness :
    (createHeader (List.replicate 128 65) []).Name =
        (List.replicate 128 (65 : Nat)).take 127 ++ [0] ∧
      ((createHeader (List.replicate 128 65) []).Name.getD 127 0 = 0 ∧
        (List.replicate 128 (65 : Nat)).take 127 ≠ List.replicate 128 (65 : Nat)) :=
  ntsm_C7_long_name_truncated (List.replicate 128 65) [] (by decide)

/-- Claim C8: an emitter record whose texture-index field holds the
little-endian signed 32-bit value -1 decodes to `TextureIndex = -1`
exactly, never 0 and never an unsigned reinterpretation.  TRUE on the
code: `binary.Read` fills the `int32` field from the 4 bytes at offset
104 of the record. -/
theorem ntsm_C8_texture_index_minus_one (b : List Nat)
    (h0 : b.getD 104 0 = 255) (h1 : b.getD 105 0 = 255)
    (h2 : b.getD 106 0 = 255) (h3 : b.getD 107 0 = 255) :
    (decodeEmitterBytes b).TextureIndex = -1 := by
  show toInt32 (u32At b 104) = -1
  rw [u32At, h0, h1, h2, h3]
  decide

/-- Witness for C8: the concrete record `c8record` with bytes
`0xFF 0xFF 0xFF 0xFF` at offsets 104..107 decodes to -1. -/
theorem ntsm_C8_witness : (decodeEmitterBytes c8record).TextureIndex = -1 :=
  ntsm_C8_texture_index_minus_one c8record (by decide) (by decide) (by decide) (by decide)

/-- Claim C9: decode is deterministic, a pure function of the supplied
bytes.  TRUE on the code: `Decode` uses no global or hidden state, so its
shallow embedding is a function and equal inputs give equal outputs. -/
theorem ntsm_C9_decode_deterministic (b1 b2 : List Nat) (h : b1 = b2) :
    Decode b1 = Decode b2 := by rw [h]

/-- Witness for C9 at a concrete input. -/
theorem ntsm_C9_witness :
    Decode (List.replicate 153 0) = Decode (List.replicate 153 0) :=
  ntsm_C9_decode_deterministic (List.replicate 153 0) (List.replicate 153 0) rfl

/-- The `GLBSize` field of `createHeader` is the blob length reduced
modulo 2^32, by unfolding the definition. -/
theorem createHeader_GLBSize (itemID g : List Nat) :
    (createHeader itemID g).GLBSize = g.length % 2 ^ 32 := rfl

/-- Counterexample to claim C10 as stated: `GLBSize` is a `uint32`, so a
GLB blob of 2^32 bytes yields `GLBSize = 0`, not its length. -/
theorem ntsm_C10_counterexample :
    (createHeader [97] (List.replicate (2 ^ 32) 0)).GLBSize = 0 ∧
      (List.replicate (2 ^ 32) (0 : Nat)).length = 2 ^ 32 ∧ (0 : Nat) ≠ 2 ^ 32 := by
  refine ⟨?_, List.length_replicate _ _, by norm_num⟩
  rw [createHeader_GLBSize, List.length_replicate, Nat.mod_self]

/-- Claim C10 (amended): every header produced by `createHeader` has
Magic "NTSM", Version 1, Flags 0, ParticleSize 0, TextureCount 0,
TextureOffset 0, GLBOffset 192; and, provided 192 plus the blob length
stays below 2^32 (the fields are uint32 and reduce modulo 2^32 otherwise),
GLBSize equals the blob length and ParticleOffset equals 192 plus the
blob length. -/
theorem ntsm_C10_createHeader_fields (itemID glbData : List Nat)
    (h : 192 + glbData.length < 2 ^ 32) :
    (createHeader itemID glbData).Magic = MagicBytes ∧
      (createHeader itemID glbData).Version = 1 ∧
      (createHeader itemID glbData).Flags = 0 ∧
      (createHeader itemID glbData).ParticleSize = 0 ∧
      (createHeader itemID glbData).TextureCount = 0 ∧
      (createHeader itemID glbData).TextureOffset = 0 ∧
      (createHeader itemID glbData).GLBOffset = 192 ∧
      (createHeader itemID glbData).GLBSize = glbData.length ∧
      (createHeader itemID glbData).ParticleOffset = 192 + glbData.length := by
  have hl : glbData.length % 2 ^ 32 = glbData.length := Nat.mod_eq_of_lt (by omega)
  refine ⟨rfl, rfl, rfl, rfl, rfl, rfl, rfl, ?_, ?_⟩
  · show glbData.length % 2 ^ 32 = glbData.length
    exact hl
  · show (HeaderSize + glbData.length % 2 ^ 32) % 2 ^ 32 = 192 + glbData.length
    rw [hl, HeaderSize]
    exact Nat.mod_eq_of_lt h

/-- Witness for C10 (amended) at item id "a" and a 3-byte blob. -/
theorem ntsm_C10_witness :
    (createHeader [97] [1, 2, 3]).Magic = MagicBytes ∧
      (createHeader [97] [1, 2, 3]).Version = 1 ∧
      (createHeader [97] [1, 2, 3]).Flags = 0 ∧
      (createHeader [97] [1, 2, 3]).ParticleSize = 0 ∧
      (createHeader [97] [1, 2, 3]).TextureCount = 0 ∧
      (createHeader [97] [1, 2, 3]).TextureOffset = 0 ∧
      (createHeader [97] [1, 2, 3]).GLBOffset = 192 ∧
      (createHeader [97] [1, 2, 3]).GLBSize = ([1, 2, 3] : List Nat).length ∧
      (createHeader [97] [1, 2, 3]).ParticleOffset = 192 + ([1, 2, 3] : List Nat).length :=
  ntsm_C10_createHeader_fields [97] [1, 2, 3] (by norm_num)

end NTSM
